import Mathlib

/-!
Verification development for the Learning-Dashboard repository.

The repository has three source files:
* `src/data/macro_data.py` — a data-access layer over the FRED API
  (`_safe_latest`, `_safe_yoy`, `_safe_qoq_annualized`, ten indicator
  fetch functions, `get_macro_snapshot`);
* `src/ui/dashboard.py` — a Tkinter dashboard whose background loader
  `_load_macro_data` turns each fetched value into a display string;
* `src/data/DSA_selection.py` — a daily-topic picker seeded by the date.

Modelling choices (shallow embedding):
* A provider series (`pandas.Series` of float64 parsed from FRED data) is a
  `List (Option ℚ)`: each observation is a decimal number (`some q`) or a
  missing value / NaN (`none`).  `dropna` keeps the numbers.
* A computed Python/numpy float value is a `PyVal`: a finite rational, `inf`,
  `ninf` or `nan`.  Rational arithmetic models float arithmetic exactly up to
  rounding/overflow; IEEE-754 division by zero (numpy emits a warning, not an
  exception) is modelled by `pydivQ`.
* The external client `fred.get_series` is an environment
  `Env : String → Except Unit Series`: for each series id the call either
  raises (`.error ()`) or returns a series.  The module-level `fred` object is
  `Option Env` (`none` when `fredapi` is missing or `FRED_API_KEY` unset).
* Each fetch function's `try:` block is an `Except Unit` computation
  (`*_body`); the `except Exception: return None` wrapper is `pyTry`.
  End-relative indexing `s.iloc[-k]` is `iloc`, which raises (`.error ()`)
  out of bounds exactly as pandas does.
-/

/-- A computed Python float value: finite (exact rational), `inf`, `-inf`
or `nan`. -/
inductive PyVal where
  | fin (q : ℚ)
  | inf
  | ninf
  | nan
deriving DecidableEq, Repr

/-- Whether a computed value is a finite number. -/
def PyVal.isFinite : PyVal → Bool
  | .fin _ => true
  | _ => false

/-- IEEE-754 division of two finite values (numpy float64 `a / b`):
division by zero yields `±inf`, and `0 / 0` yields `nan`, without raising. -/
def pydivQ (a b : ℚ) : PyVal :=
  if b = 0 then
    (if a = 0 then .nan else if 0 < a then .inf else .ninf)
  else .fin (a / b)

/-- Subtraction of a finite constant from a computed value (`v - c`). -/
def pysubQ : PyVal → ℚ → PyVal
  | .fin a, c => .fin (a - c)
  | .inf, _ => .inf
  | .ninf, _ => .ninf
  | .nan, _ => .nan

/-- Addition of a finite constant to a computed value (`c + v`). -/
def pyaddQ (c : ℚ) : PyVal → PyVal
  | .fin a => .fin (c + a)
  | .inf => .inf
  | .ninf => .ninf
  | .nan => .nan

/-- Multiplication of a computed value by a finite constant (`v * c`);
`±inf * 0 = nan` as in IEEE-754. -/
def pymulQ : PyVal → ℚ → PyVal
  | .fin a, c => .fin (a * c)
  | .inf, c => if 0 < c then .inf else if c < 0 then .ninf else .nan
  | .ninf, c => if 0 < c then .ninf else if c < 0 then .inf else .nan
  | .nan, _ => .nan

/-- Fourth power of a computed value (`v ** 4`); the even power sends both
infinities to `inf`. -/
def pypow4 : PyVal → PyVal
  | .fin a => .fin (a ^ 4)
  | .inf => .inf
  | .ninf => .inf
  | .nan => .nan

/-- A provider time series: each observation is a decimal number or
missing (NaN). -/
abbrev Series := List (Option ℚ)

/-- `pandas.Series.dropna`: the non-null observations, in order. -/
def dropna (s : Series) : List ℚ := s.filterMap id

/-- The external FRED client: `get_series` on a series id either raises or
returns a series. -/
abbrev Env := String → Except Unit Series

/-- `s.iloc[-k]` on a series of length `n`: the element at position `n - k`
when `1 ≤ k ≤ n`, an `IndexError` otherwise. -/
def iloc (l : List ℚ) (k : Nat) : Except Unit ℚ :=
  if 1 ≤ k ∧ k ≤ l.length then .ok (l.getD (l.length - k) 0) else .error ()

/-- The `except Exception: return None` wrapper: a raised exception becomes
`none`, a normal result passes through. -/
def pyTry (r : Except Unit (Option PyVal)) : Option PyVal :=
  match r with
  | .ok v => v
  | .error _ => none

/-- Body of `_safe_latest`'s `try:` block:
`s = fred.get_series(series_id); return float(s.dropna().iloc[-1])`. -/
def safe_latest_body (env : Env) (series_id : String) :
    Except Unit (Option PyVal) := do
  let s ← env series_id
  let v ← iloc (dropna s) 1
  return some (.fin v)

/-- `_safe_latest`: returns `None` when `fred is None`, otherwise runs the
body under a catch-all. -/
def _safe_latest (fred : Option Env) (series_id : String) : Option PyVal :=
  match fred with
  | none => none
  | some env => pyTry (safe_latest_body env series_id)

/-- Body of `_safe_yoy`'s `try:` block:
`s = fred.get_series(series_id).dropna(); if len(s) < 13: return None;
return float((s.iloc[-1] / s.iloc[-13] - 1) * 100)`. -/
def safe_yoy_body (env : Env) (series_id : String) :
    Except Unit (Option PyVal) := do
  let s0 ← env series_id
  let s := dropna s0
  if s.length < 13 then return none
  let a ← iloc s 1
  let b ← iloc s 13
  return some (pymulQ (pysubQ (pydivQ a b) 1) 100)

/-- `_safe_yoy`: year-over-year percent change for a monthly series. -/
def _safe_yoy (fred : Option Env) (series_id : String) : Option PyVal :=
  match fred with
  | none => none
  | some env => pyTry (safe_yoy_body env series_id)

/-- Body of `_safe_qoq_annualized`'s `try:` block:
`s = fred.get_series(series_id).dropna(); if len(s) < 2: return None;
qoq = (s.iloc[-1] / s.iloc[-2] - 1);
return float((1 + qoq) ** 4 - 1) * 100`. -/
def safe_qoq_body (env : Env) (series_id : String) :
    Except Unit (Option PyVal) := do
  let s0 ← env series_id
  let s := dropna s0
  if s.length < 2 then return none
  let a ← iloc s 1
  let b ← iloc s 2
  let qoq := pysubQ (pydivQ a b) 1
  return some (pymulQ (pysubQ (pypow4 (pyaddQ 1 qoq)) 1) 100)

/-- `_safe_qoq_annualized`: quarter-over-quarter annualized growth rate. -/
def _safe_qoq_annualized (fred : Option Env) (series_id : String) :
    Option PyVal :=
  match fred with
  | none => none
  | some env => pyTry (safe_qoq_body env series_id)

/-- Body of `payroll_employment_change`'s `try:` block:
`s = fred.get_series("PAYEMS").dropna();
return float((s.iloc[-1] - s.iloc[-2]) / 1000)`. -/
def payroll_body (env : Env) : Except Unit (Option PyVal) := do
  let s0 ← env "PAYEMS"
  let s := dropna s0
  let a ← iloc s 1
  let b ← iloc s 2
  return some (.fin ((a - b) / 1000))

/-- Body of `yield_curve_3m_10y`'s `try:` block:
`t10y = fred.get_series("DGS10").dropna().iloc[-1];
t3m = fred.get_series("DTB3").dropna().iloc[-1];
return float(t10y - t3m)`. -/
def yield_curve_body (env : Env) : Except Unit (Option PyVal) := do
  let s10 ← env "DGS10"
  let t10y ← iloc (dropna s10) 1
  let s3 ← env "DTB3"
  let t3m ← iloc (dropna s3) 1
  return some (.fin (t10y - t3m))

/-- `real_gdp_growth`: Real GDP QoQ annualized (%). -/
def real_gdp_growth (fred : Option Env) : Option PyVal :=
  _safe_qoq_annualized fred "GDPC1"

/-- `nominal_gdp_growth`: Nominal GDP QoQ annualized (%). -/
def nominal_gdp_growth (fred : Option Env) : Option PyVal :=
  _safe_qoq_annualized fred "GDP"

/-- `unemployment_rate`: Unemployment rate (%). -/
def unemployment_rate (fred : Option Env) : Option PyVal :=
  _safe_latest fred "UNRATE"

/-- `prime_age_employment_ratio`: prime-age employment-population ratio. -/
def prime_age_employment_ratio (fred : Option Env) : Option PyVal :=
  _safe_latest fred "LNS12300060"

/-- `payroll_employment_change`: monthly change in nonfarm payrolls. -/
def payroll_employment_change (fred : Option Env) : Option PyVal :=
  match fred with
  | none => none
  | some env => pyTry (payroll_body env)

/-- `core_pce_yoy`: Core PCE inflation YoY (%). -/
def core_pce_yoy (fred : Option Env) : Option PyVal :=
  _safe_yoy fred "PCEPILFE"

/-- `wage_growth_yoy`: average hourly earnings YoY (%). -/
def wage_growth_yoy (fred : Option Env) : Option PyVal :=
  _safe_yoy fred "CES0500000003"

/-- `yield_curve_3m_10y`: 3-month minus 10-year Treasury yield. -/
def yield_curve_3m_10y (fred : Option Env) : Option PyVal :=
  match fred with
  | none => none
  | some env => pyTry (yield_curve_body env)

/-- `credit_spread_high_yield`: high-yield corporate bond spread. -/
def credit_spread_high_yield (fred : Option Env) : Option PyVal :=
  _safe_latest fred "BAMLH0A0HYM2"

/-- `financial_conditions_index`: Chicago Fed NFCI. -/
def financial_conditions_index (fred : Option Env) : Option PyVal :=
  _safe_latest fred "NFCI"

/-- `get_macro_snapshot`: the snapshot dictionary of all core macro
indicators (a Python dict preserves insertion order; modelled as an
association list). -/
def get_macro_snapshot (fred : Option Env) : List (String × Option PyVal) :=
  [ ("Real GDP Growth (%)", real_gdp_growth fred),
    ("Nominal GDP Growth (%)", nominal_gdp_growth fred),
    ("Unemployment Rate (%)", unemployment_rate fred),
    ("Prime-Age E/P Ratio (%)", prime_age_employment_ratio fred),
    ("Payroll Change (k)", payroll_employment_change fred),
    ("Core PCE YoY (%)", core_pce_yoy fred),
    ("Wage Growth YoY (%)", wage_growth_yoy fred),
    ("Yield Curve 3m–10y", yield_curve_3m_10y fred),
    ("High-Yield Spread", credit_spread_high_yield fred),
    ("Financial Conditions Index", financial_conditions_index fred) ]

/-- The ten snapshot keys, in the order `get_macro_snapshot` builds them. -/
def snapshot_keys : List String :=
  [ "Real GDP Growth (%)", "Nominal GDP Growth (%)", "Unemployment Rate (%)",
    "Prime-Age E/P Ratio (%)", "Payroll Change (k)", "Core PCE YoY (%)",
    "Wage Growth YoY (%)", "Yield Curve 3m–10y", "High-Yield Spread",
    "Financial Conditions Index" ]

/-!
Display layer (`src/ui/dashboard.py`).  The loader body is
`value = func(); display = f"{value:.2f}" if value is not None else "Error"`
inside a `try`, with `except Exception: display = "Error"`, and one
`self.after(0, ...)` scheduled row update per indicator.
-/

/-- The decimal digit character for `d < 10` (as in Python's `%d`). -/
def digitChar (d : Nat) : Char := Char.ofNat (48 + d)

/-- Round half-to-even to the nearest integer, as IEEE-754 / Python float
formatting rounds ties. -/
def roundHalfEven (q : ℚ) : ℤ :=
  let f := ⌊q⌋
  let r := q - f
  if r < 1/2 then f
  else if (1:ℚ)/2 < r then f + 1
  else if f % 2 = 0 then f else f + 1

/-- Python's `f"{v:.2f}"` on a finite value: sign, integer part, a point and
exactly two fractional digits (the exact rational stands in for the float;
`ℚ` has no negative zero). -/
def formatFixed2 (q : ℚ) : String :=
  let n := roundHalfEven (q * 100)
  let m := n.natAbs
  (if n < 0 then "-" else "") ++ toString (m / 100) ++
    String.mk [Char.ofNat 46, digitChar (m % 100 / 10), digitChar (m % 10)]

/-- Python's `f"{v:.2f}"` on any float value: non-finite values render as
`inf`, `-inf` or `nan`. -/
def pyFormat2 : PyVal → String
  | .fin q => formatFixed2 q
  | .inf => "inf"
  | .ninf => "-inf"
  | .nan => "nan"

/-- The display string computed by `_load_macro_data` for one fetch result:
the fetch may itself raise (`.error`), which the loader's own
`except Exception` turns into `"Error"`; a returned `None` also renders as
`"Error"`, and a float renders with `f"{value:.2f}"`. -/
def display_of (r : Except Unit (Option PyVal)) : String :=
  match r with
  | .error _ => "Error"
  | .ok none => "Error"
  | .ok (some v) => pyFormat2 v

/-- A fetch function as the loader sees it: a call that either raises or
returns an optional float. -/
abbrev PyFunc := Unit → Except Unit (Option PyVal)

/-- `MacroDashboard.populate_table`'s indicator list: (label, function)
pairs, in source order.  The yield-curve label carries the mojibake bytes
present in `dashboard.py` (U+00E2 U+20AC U+201C in place of the en dash).
The fetch functions of `macro_data.py` never raise (each catches all
exceptions), so each is wrapped as an always-`ok` call. -/
def indicators (fred : Option Env) : List (String × PyFunc) :=
  [ ("Real GDP Growth (%)", fun _ => .ok (real_gdp_growth fred)),
    ("Nominal GDP Growth (%)", fun _ => .ok (nominal_gdp_growth fred)),
    ("Unemployment Rate (%)", fun _ => .ok (unemployment_rate fred)),
    ("Prime-Age E/P Ratio (%)", fun _ => .ok (prime_age_employment_ratio fred)),
    ("Payroll Change (k)", fun _ => .ok (payroll_employment_change fred)),
    ("Core PCE YoY (%)", fun _ => .ok (core_pce_yoy fred)),
    ("Wage Growth YoY (%)", fun _ => .ok (wage_growth_yoy fred)),
    ("Yield Curve 3mâ€“10y", fun _ => .ok (yield_curve_3m_10y fred)),
    ("High-Yield Spread", fun _ => .ok (credit_spread_high_yield fred)),
    ("Financial Conditions Index", fun _ => .ok (financial_conditions_index fred)) ]

/-- `MacroDashboard._load_macro_data`: iterate the indicator list in order,
call each fetch function, compute its display string, and schedule exactly
one row update `(name, display)` per indicator on the main thread.  The
returned list is the sequence of scheduled updates, in scheduling order. -/
def _load_macro_data (ind : List (String × PyFunc)) : List (String × String) :=
  ind.map (fun p => (p.1, display_of (p.2 ())))

/-!
Daily-topic picker (`src/data/DSA_selection.py`).
-/

/-- `TOPICS`: the five fixed algorithm topics. -/
def TOPICS : List String :=
  ["BFS", "DFS", "Binary Search", "Sliding Window", "Two Pointers"]

/-- `get_topic`: `rng = random.Random(today); return rng.choice(TOPICS)`
where `today = date.today().isoformat()`.  `random.Random(seed)` is a
deterministic pure function of its seed, and `choice(seq)` returns
`seq[self._randbelow(len(seq))]`; the seeded Mersenne Twister is modelled
abstractly as `randbelow seed n`, the first `_randbelow(n)` draw of a
generator seeded with `seed` (Python guarantees it lies in `[0, n)` for
`n > 0`). -/
def get_topic (randbelow : String → Nat → Nat) (today : String) : String :=
  TOPICS.getD (randbelow today TOPICS.length) ""

/-!
Concrete environments used by witnesses and counterexamples.
-/

/-- An environment in which every `get_series` call raises. -/
def envErr : Env := fun _ => .error ()

/-- An environment returning, for every series id, a 13-observation series
whose first (13th-from-the-end) value is `0` and whose later values are
`1`: the year-over-year divisor is zero. -/
def envC2 : Env := fun _ => .ok (some 0 :: List.replicate 12 (some 1))

/-- A 13-observation series with first value `2` and last value `4`. -/
def sY : Series :=
  [some 2, some 2, some 2, some 2, some 2, some 2, some 2,
   some 2, some 2, some 2, some 2, some 2, some 4]

/-- An environment returning the series `sY` for every series id. -/
def envY : Env := fun _ => .ok sY

/-- An environment returning, for every series id, the two-observation
series `[1, 2]`. -/
def envQ : Env := fun _ => .ok [some 1, some 2]

/-- An environment whose `PAYEMS` series has a single non-null observation
and whose every other series is empty. -/
def envShort : Env := fun sid => if sid = "PAYEMS" then .ok [some 1] else .ok []

/-- A trivial stand-in for the seeded generator's `_randbelow`. -/
def rb0 : String → Nat → Nat := fun _ _ => 0

/-- `Option PyVal` result invariant: absent, or a finite number. -/
def finiteOrNone (o : Option PyVal) : Bool := o.all PyVal.isFinite

/-!
Theorems.
-/

/-- C9: when the FRED client is unconfigured (`fred is None`), every
indicator fetch function returns `None` immediately; since no client object
exists, no external call can be attempted. -/
theorem unconfigured_client_all_none :
    real_gdp_growth none = none ∧ nominal_gdp_growth none = none ∧
    unemployment_rate none = none ∧ prime_age_employment_ratio none = none ∧
    payroll_employment_change none = none ∧ core_pce_yoy none = none ∧
    wage_growth_yoy none = none ∧ yield_curve_3m_10y none = none ∧
    credit_spread_high_yield none = none ∧
    financial_conditions_index none = none :=
  ⟨rfl, rfl, rfl, rfl, rfl, rfl, rfl, rfl, rfl, rfl⟩

/-- C4: `get_macro_snapshot` is a flat mapping whose keys are exactly the
ten fixed indicator display names, in order, and whose value at each key is
the result of calling that indicator's fetch function on the current
client. -/
theorem snapshot_keys_and_values (fred : Option Env) :
    (get_macro_snapshot fred).map Prod.fst = snapshot_keys ∧
    (get_macro_snapshot fred).lookup "Real GDP Growth (%)"
      = some (real_gdp_growth fred) ∧
    (get_macro_snapshot fred).lookup "Nominal GDP Growth (%)"
      = some (nominal_gdp_growth fred) ∧
    (get_macro_snapshot fred).lookup "Unemployment Rate (%)"
      = some (unemployment_rate fred) ∧
    (get_macro_snapshot fred).lookup "Prime-Age E/P Ratio (%)"
      = some (prime_age_employment_ratio fred) ∧
    (get_macro_snapshot fred).lookup "Payroll Change (k)"
      = some (payroll_employment_change fred) ∧
    (get_macro_snapshot fred).lookup "Core PCE YoY (%)"
      = some (core_pce_yoy fred) ∧
    (get_macro_snapshot fred).lookup "Wage Growth YoY (%)"
      = some (wage_growth_yoy fred) ∧
    (get_macro_snapshot fred).lookup "Yield Curve 3m–10y"
      = some (yield_curve_3m_10y fred) ∧
    (get_macro_snapshot fred).lookup "High-Yield Spread"
      = some (credit_spread_high_yield fred) ∧
    (get_macro_snapshot fred).lookup "Financial Conditions Index"
      = some (financial_conditions_index fred) :=
  ⟨rfl, rfl, rfl, rfl, rfl, rfl, rfl, rfl, rfl, rfl, rfl⟩

/-- C7: the background loader walks the indicator list in its fixed order
and schedules exactly one row update per indicator — the scheduled updates
carry the indicator names in list order, one each, with the dashboard's
concrete list having exactly ten entries — and a fetch function that raises
still yields its one `"Error"` update. -/
theorem loader_one_update_per_indicator (fred : Option Env)
    (ind : List (String × PyFunc)) (name : String) :
    (_load_macro_data ind).map Prod.fst = ind.map Prod.fst ∧
    (_load_macro_data ind).length = ind.length ∧
    (_load_macro_data (indicators fred)).map Prod.fst
      = (indicators fred).map Prod.fst ∧
    (indicators fred).length = 10 ∧
    _load_macro_data [(name, fun _ => Except.error ())] = [(name, "Error")] := by
  refine ⟨?_, ?_, ?_, rfl, rfl⟩
  · simp [_load_macro_data]
  · simp [_load_macro_data]
  · simp [_load_macro_data]

/-- C8: `get_topic` is deterministic for a fixed date (the generator is a
pure function of the date's ISO string, so two calls on the same date
coincide), and its result is always one of the five strings in `TOPICS`. -/
theorem get_topic_deterministic_in_TOPICS
    (randbelow : String → Nat → Nat) (today : String)
    (h : randbelow today TOPICS.length < TOPICS.length) :
    get_topic randbelow today = get_topic randbelow today ∧
    get_topic randbelow today ∈ TOPICS := by
  refine ⟨rfl, ?_⟩
  unfold get_topic
  rw [List.getD_eq_getElem _ _ h]
  exact List.getElem_mem _

/-- C1: for each of the ten indicator fetch functions, if the body of its
`try:` block (the external `get_series` call together with every subsequent
transformation) raises, the function returns `None`; the catch-all leaves
no other outcome for a failure. -/
theorem fetch_error_yields_none (env : Env) :
    (safe_qoq_body env "GDPC1" = .error () → real_gdp_growth (some env) = none) ∧
    (safe_qoq_body env "GDP" = .error () → nominal_gdp_growth (some env) = none) ∧
    (safe_latest_body env "UNRATE" = .error () → unemployment_rate (some env) = none) ∧
    (safe_latest_body env "LNS12300060" = .error () →
      prime_age_employment_ratio (some env) = none) ∧
    (payroll_body env = .error () → payroll_employment_change (some env) = none) ∧
    (safe_yoy_body env "PCEPILFE" = .error () → core_pce_yoy (some env) = none) ∧
    (safe_yoy_body env "CES0500000003" = .error () →
      wage_growth_yoy (some env) = none) ∧
    (yield_curve_body env = .error () → yield_curve_3m_10y (some env) = none) ∧
    (safe_latest_body env "BAMLH0A0HYM2" = .error () →
      credit_spread_high_yield (some env) = none) ∧
    (safe_latest_body env "NFCI" = .error () →
      financial_conditions_index (some env) = none) := by
  refine ⟨?_, ?_, ?_, ?_, ?_, ?_, ?_, ?_, ?_, ?_⟩ <;> intro h <;>
    simp [real_gdp_growth, nominal_gdp_growth, unemployment_rate,
      prime_age_employment_ratio, payroll_employment_change, core_pce_yoy,
      wage_growth_yoy, yield_curve_3m_10y, credit_spread_high_yield,
      financial_conditions_index, _safe_qoq_annualized, _safe_latest,
      _safe_yoy, pyTry, h]

/-- Witness for C1: in the environment where every external call raises,
all ten fetch functions return `None`. -/
theorem fetch_error_yields_none_witness :
    real_gdp_growth (some envErr) = none ∧
    nominal_gdp_growth (some envErr) = none ∧
    unemployment_rate (some envErr) = none ∧
    prime_age_employment_ratio (some envErr) = none ∧
    payroll_employment_change (some envErr) = none ∧
    core_pce_yoy (some envErr) = none ∧
    wage_growth_yoy (some envErr) = none ∧
    yield_curve_3m_10y (some envErr) = none ∧
    credit_spread_high_yield (some envErr) = none ∧
    financial_conditions_index (some envErr) = none := by
  have h := fetch_error_yields_none envErr
  exact ⟨h.1 rfl, h.2.1 rfl, h.2.2.1 rfl, h.2.2.2.1 rfl, h.2.2.2.2.1 rfl,
    h.2.2.2.2.2.1 rfl, h.2.2.2.2.2.2.1 rfl, h.2.2.2.2.2.2.2.1 rfl,
    h.2.2.2.2.2.2.2.2.1 rfl, h.2.2.2.2.2.2.2.2.2 rfl⟩

/-- C10: end-relative indexing on a too-short series raises inside the
`try:` block and is swallowed: `_safe_latest` on a series with no non-null
observation, `payroll_employment_change` on a series with fewer than two
non-null observations, and `yield_curve_3m_10y` on an empty `DGS10` series
all return `None` rather than letting the `IndexError` escape. -/
theorem short_series_swallowed (env : Env) :
    (∀ (sid : String) (s : Series), env sid = .ok s → dropna s = [] →
      _safe_latest (some env) sid = none) ∧
    (∀ s : Series, env "PAYEMS" = .ok s → (dropna s).length < 2 →
      payroll_employment_change (some env) = none) ∧
    (∀ s : Series, env "DGS10" = .ok s → dropna s = [] →
      yield_curve_3m_10y (some env) = none) := by
  refine ⟨?_, ?_, ?_⟩
  · intro sid s h he
    simp only [_safe_latest, safe_latest_body, h, he, bind, Except.bind, iloc]
    norm_num [pyTry]
  · intro s h hs
    simp only [payroll_employment_change, payroll_body, h, bind, Except.bind,
      iloc]
    have hcase : (dropna s).length = 0 ∨ (dropna s).length = 1 := by omega
    rcases hcase with h0 | h1
    · rw [if_neg (by omega)]; rfl
    · rw [if_pos (by omega), if_neg (by omega)]; rfl
  · intro s h he
    simp only [yield_curve_3m_10y, yield_curve_body, h, he, bind, Except.bind,
      iloc]
    norm_num [pyTry]

/-- Witness for C10: a concrete environment with a one-observation
`PAYEMS` series and empty series otherwise yields `None` from all three
fetchers. -/
theorem short_series_swallowed_witness :
    _safe_latest (some envShort) "UNRATE" = none ∧
    payroll_employment_change (some envShort) = none ∧
    yield_curve_3m_10y (some envShort) = none := by
  have h := short_series_swallowed envShort
  exact ⟨h.1 "UNRATE" [] rfl rfl,
    h.2.1 [some 1] rfl (by decide),
    h.2.2 [] rfl rfl⟩


/-- C5: on a successfully retrieved series, `_safe_yoy` drops the null
observations and, when at least 13 remain, returns
`(last / 13th-from-the-end - 1) * 100` using end-relative indexing
(`iloc[-1]` and `iloc[-13]`); with fewer than 13 it returns `None`. -/
theorem yoy_formula (env : Env) (sid : String) (s : Series)
    (h : env sid = .ok s) :
    (13 ≤ (dropna s).length →
      _safe_yoy (some env) sid =
        some (pymulQ (pysubQ (pydivQ ((dropna s).getD ((dropna s).length - 1) 0)
          ((dropna s).getD ((dropna s).length - 13) 0)) 1) 100)) ∧
    ((dropna s).length < 13 → _safe_yoy (some env) sid = none) := by
  constructor
  · intro h13
    simp only [_safe_yoy, safe_yoy_body, h, bind, Except.bind, iloc]
    rw [if_neg (by omega)]
    rw [if_pos (by omega), if_pos (by omega)]
    rfl
  · intro h13
    simp only [_safe_yoy, safe_yoy_body, h, bind, Except.bind]
    rw [if_pos h13]
    rfl

/-- Witness for C5: on the 13-observation series `2, …, 2, 4` the
year-over-year change is `(4/2 - 1) * 100 = 100`, and on a 2-observation
series the result is `None`. -/
theorem yoy_formula_witness :
    _safe_yoy (some envY) "PCEPILFE" = some (PyVal.fin 100) ∧
    _safe_yoy (some envQ) "PCEPILFE" = none := by
  constructor
  · have h := (yoy_formula envY "PCEPILFE" sY rfl).1 (by decide)
    rw [h]
    norm_num [dropna, sY, List.filterMap, pydivQ, pysubQ, pymulQ]
  · exact (yoy_formula envQ "PCEPILFE" [some 1, some 2] rfl).2 (by decide)

/-- C6: on a successfully retrieved series, `_safe_qoq_annualized` drops
the null observations and, when at least 2 remain, returns
`((1 + q)^4 - 1) * 100` with `q = last / previous - 1` using end-relative
indexing (`iloc[-1]` and `iloc[-2]`); with fewer than 2 it returns
`None`. -/
theorem qoq_formula (env : Env) (sid : String) (s : Series)
    (h : env sid = .ok s) :
    (2 ≤ (dropna s).length →
      _safe_qoq_annualized (some env) sid =
        some (pymulQ (pysubQ (pypow4 (pyaddQ 1
          (pysubQ (pydivQ ((dropna s).getD ((dropna s).length - 1) 0)
            ((dropna s).getD ((dropna s).length - 2) 0)) 1))) 1) 100)) ∧
    ((dropna s).length < 2 → _safe_qoq_annualized (some env) sid = none) := by
  constructor
  · intro h2
    simp only [_safe_qoq_annualized, safe_qoq_body, h, bind, Except.bind, iloc]
    rw [if_neg (by omega)]
    rw [if_pos (by omega), if_pos (by omega)]
    rfl
  · intro h2
    simp only [_safe_qoq_annualized, safe_qoq_body, h, bind, Except.bind]
    rw [if_pos h2]
    rfl

/-- Witness for C6: on the series `[1, 2]` the quarterly growth is
`q = 2/1 - 1 = 1`, annualized to `(2^4 - 1) * 100 = 1500`; on an empty
series the result is `None`. -/
theorem qoq_formula_witness :
    _safe_qoq_annualized (some envQ) "GDPC1" = some (PyVal.fin 1500) ∧
    _safe_qoq_annualized (some envShort) "GDPC1" = none := by
  constructor
  · have h := (qoq_formula envQ "GDPC1" [some 1, some 2] rfl).1 (by decide)
    rw [h]
    norm_num [dropna, List.filterMap, pydivQ, pysubQ, pymulQ, pyaddQ, pypow4]
  · exact (qoq_formula envShort "GDPC1" [] rfl).2 (by decide)

/-- C2 counterexample: with a provider series whose 13th-from-the-end
observation is `0` (`0, 1, …, 1`), `core_pce_yoy` (via `_safe_yoy`) returns
the IEEE infinity `(1/0 - 1) * 100 = inf` — a value that is neither `None`
nor finite, refuting the claim as stated. -/
theorem yoy_can_be_infinite :
    core_pce_yoy (some envC2) = some PyVal.inf ∧
    PyVal.inf.isFinite = false := ⟨by decide, rfl⟩

/-- `iloc l k` succeeds with the `k`-th element from the end when in
bounds. -/
theorem iloc_ok (l : List ℚ) (k : Nat) (h1 : 1 ≤ k) (h2 : k ≤ l.length) :
    iloc l k = .ok (l.getD (l.length - k) 0) := by
  unfold iloc; rw [if_pos ⟨h1, h2⟩]

/-- `iloc l k` raises when the series is shorter than `k`. -/
theorem iloc_err (l : List ℚ) (k : Nat) (h : l.length < k) :
    iloc l k = .error () := by
  unfold iloc; rw [if_neg (by omega)]

/-- C2 amended: every derived-metric function returns a float or `None`;
`_safe_latest`, `payroll_employment_change` and `yield_curve_3m_10y` always
return a finite value or `None`, and `_safe_yoy` / `_safe_qoq_annualized`
do so whenever the observation used as divisor (the 13th-from-the-end,
resp. the previous one) is nonzero — a zero divisor can instead produce an
infinite or NaN value. -/
theorem derived_metric_finite_or_none :
    (∀ (env : Env) (sid : String),
      finiteOrNone (_safe_latest (some env) sid) = true) ∧
    (∀ env : Env, finiteOrNone (payroll_employment_change (some env)) = true) ∧
    (∀ env : Env, finiteOrNone (yield_curve_3m_10y (some env)) = true) ∧
    (∀ (env : Env) (sid : String) (s : Series), env sid = .ok s →
      (dropna s).getD ((dropna s).length - 13) 0 ≠ 0 →
      finiteOrNone (_safe_yoy (some env) sid) = true) ∧
    (∀ (env : Env) (sid : String) (s : Series), env sid = .ok s →
      (dropna s).getD ((dropna s).length - 2) 0 ≠ 0 →
      finiteOrNone (_safe_qoq_annualized (some env) sid) = true) := by
  refine ⟨?_, ?_, ?_, ?_, ?_⟩
  · intro env sid
    cases henv : env sid with
    | error e =>
      simp [_safe_latest, safe_latest_body, henv, bind, Except.bind, pyTry,
        finiteOrNone]
    | ok s =>
      by_cases h1 : 1 ≤ (dropna s).length
      · simp [_safe_latest, safe_latest_body, henv, bind, Except.bind,
          iloc_ok (dropna s) 1 le_rfl h1, pyTry, finiteOrNone,
          PyVal.isFinite, pure, Except.pure]
      · simp [_safe_latest, safe_latest_body, henv, bind, Except.bind,
          iloc_err (dropna s) 1 (by omega), pyTry, finiteOrNone]
  · intro env
    cases henv : env "PAYEMS" with
    | error e =>
      simp [payroll_employment_change, payroll_body, henv, bind, Except.bind,
        pyTry, finiteOrNone]
    | ok s =>
      by_cases h2 : 2 ≤ (dropna s).length
      · simp [payroll_employment_change, payroll_body, henv, bind, Except.bind,
          iloc_ok (dropna s) 1 le_rfl (by omega), iloc_ok (dropna s) 2 (by omega) h2,
          pyTry, finiteOrNone, PyVal.isFinite, pure, Except.pure]
      · by_cases h1 : 1 ≤ (dropna s).length
        · simp [payroll_employment_change, payroll_body, henv, bind,
            Except.bind, iloc_ok (dropna s) 1 le_rfl h1,
            iloc_err (dropna s) 2 (by omega), pyTry, finiteOrNone, pure,
            Except.pure]
        · simp [payroll_employment_change, payroll_body, henv, bind,
            Except.bind, iloc_err (dropna s) 1 (by omega), pyTry, finiteOrNone]
  · intro env
    cases henv : env "DGS10" with
    | error e =>
      simp [yield_curve_3m_10y, yield_curve_body, henv, bind, Except.bind,
        pyTry, finiteOrNone]
    | ok s10 =>
      by_cases h1 : 1 ≤ (dropna s10).length
      · cases henv3 : env "DTB3" with
        | error e =>
          simp [yield_curve_3m_10y, yield_curve_body, henv, henv3, bind,
            Except.bind, iloc_ok (dropna s10) 1 le_rfl h1, pyTry, finiteOrNone,
            pure, Except.pure]
        | ok s3 =>
          by_cases h3 : 1 ≤ (dropna s3).length
          · simp [yield_curve_3m_10y, yield_curve_body, henv, henv3, bind,
              Except.bind, iloc_ok (dropna s10) 1 le_rfl h1,
              iloc_ok (dropna s3) 1 le_rfl h3, pyTry, finiteOrNone,
              PyVal.isFinite, pure, Except.pure]
          · simp [yield_curve_3m_10y, yield_curve_body, henv, henv3, bind,
              Except.bind, iloc_ok (dropna s10) 1 le_rfl h1,
              iloc_err (dropna s3) 1 (by omega), pyTry, finiteOrNone, pure,
              Except.pure]
      · simp [yield_curve_3m_10y, yield_curve_body, henv, bind, Except.bind,
          iloc_err (dropna s10) 1 (by omega), pyTry, finiteOrNone]
  · intro env sid s henv hb
    by_cases h13 : (dropna s).length < 13
    · simp [_safe_yoy, safe_yoy_body, henv, bind, Except.bind, h13, pyTry,
        finiteOrNone, pure, Except.pure]
    · rw [List.getD_eq_getElem?_getD] at hb
      simp [_safe_yoy, safe_yoy_body, henv, bind, Except.bind, h13,
        iloc_ok (dropna s) 1 le_rfl (by omega),
        iloc_ok (dropna s) 13 (by omega) (by omega), pyTry, finiteOrNone,
        pydivQ, hb, pysubQ, pymulQ, PyVal.isFinite, pure, Except.pure]
  · intro env sid s henv hb
    by_cases h2 : (dropna s).length < 2
    · simp [_safe_qoq_annualized, safe_qoq_body, henv, bind, Except.bind, h2,
        pyTry, finiteOrNone, pure, Except.pure]
    · rw [List.getD_eq_getElem?_getD] at hb
      simp [_safe_qoq_annualized, safe_qoq_body, henv, bind, Except.bind, h2,
        iloc_ok (dropna s) 1 le_rfl (by omega),
        iloc_ok (dropna s) 2 (by omega) (by omega), pyTry, finiteOrNone,
        pydivQ, hb, pysubQ, pymulQ, pyaddQ, pypow4, PyVal.isFinite, pure,
        Except.pure]

/-- Witness for the amended C2: concrete environments with nonzero
divisors give finite results (or an unconditionally safe fetcher). -/
theorem derived_metric_finite_or_none_witness :
    finiteOrNone (_safe_yoy (some envY) "PCEPILFE") = true ∧
    finiteOrNone (_safe_qoq_annualized (some envQ) "GDPC1") = true ∧
    finiteOrNone (_safe_latest (some envY) "UNRATE") = true := by
  have h := derived_metric_finite_or_none
  exact ⟨h.2.2.2.1 envY "PCEPILFE" sY rfl (by decide),
    h.2.2.2.2 envQ "GDPC1" [some 1, some 2] rfl (by decide),
    h.1 envY "UNRATE"⟩

/-- The character produced by `digitChar` is a decimal digit. -/
theorem digitChar_isDigit (d : Nat) (hd : d < 10) :
    (digitChar d).isDigit = true := by
  interval_cases d <;> decide

/-- C3 counterexample: a fetch function can return the non-finite float
`inf` (zero year-over-year divisor), and the loader then renders the cell
as `"inf"` — a string containing no decimal point at all, so not every
returned float is displayed with exactly two decimal places. -/
theorem display_two_decimals_counterexample :
    core_pce_yoy (some envC2) = some PyVal.inf ∧
    display_of (.ok (core_pce_yoy (some envC2))) = "inf" ∧
    "inf".data.contains (Char.ofNat 46) = false :=
  ⟨by decide, by decide, by decide⟩

/-- C3 amended: the display layer renders an absent value (`None`, or a
fetch that raised) as the fixed string `"Error"`, renders every finite
float with a decimal point followed by exactly two digits, and renders the
non-finite floats as `"inf"`, `"-inf"` or `"nan"`. -/
theorem display_rendering (q : ℚ) :
    display_of (.error ()) = "Error" ∧
    display_of (.ok none) = "Error" ∧
    (∃ a : String, ∃ b c : Char,
      display_of (.ok (some (.fin q))) = a ++ String.mk [Char.ofNat 46, b, c] ∧
      b.isDigit = true ∧ c.isDigit = true) ∧
    display_of (.ok (some .inf)) = "inf" ∧
    display_of (.ok (some .ninf)) = "-inf" ∧
    display_of (.ok (some .nan)) = "nan" := by
  refine ⟨rfl, rfl, ?_, rfl, rfl, rfl⟩
  refine ⟨(if roundHalfEven (q * 100) < 0 then "-" else "") ++
      toString ((roundHalfEven (q * 100)).natAbs / 100),
    digitChar ((roundHalfEven (q * 100)).natAbs % 100 / 10),
    digitChar ((roundHalfEven (q * 100)).natAbs % 10), rfl, ?_, ?_⟩
  · exact digitChar_isDigit _ (by omega)
  · exact digitChar_isDigit _ (by omega)

/-- Witness for C8: with a concrete in-range generator draw, the topic for
a fixed date is defined and belongs to `TOPICS`. -/
theorem get_topic_witness :
    get_topic rb0 "2026-10-12" = get_topic rb0 "2026-10-12" ∧
    get_topic rb0 "2026-10-12" ∈ TOPICS :=
  get_topic_deterministic_in_TOPICS rb0 "2026-10-12" (by decide)
